import Mathlib

/-!
Verification of the dota2-meta-lab repository against its natural-language
specification.  Each section is a shallow embedding of one source file:

* `App`            — `src/api/app.py` (Flask prediction service)
* `AnalyzeData`    — `scripts/analyze_data.py` (feature extraction)
* `TrainScript`    — `scripts/train_model.py` (training entry point)
* `Dota2MetaModel` — `src/models/dota2_model.py` (classifier wrapper)
* `Fetcher`        — `fetch_open_dota.py` / `src/data/open_dota_fetcher.py`
* `StoreDb`        — `scripts/store_database.py` (MongoDB upsert)

Numeric JSON values are modelled as rationals; machine floats only pass
through the code unchanged, so exact arithmetic is a faithful embedding of
the data flow being verified.
-/

namespace App

/-- Python's `dict.get(key, default)` on the parsed JSON body.  The body is
an association list from field names to numbers. -/
def dataGet (data : List (String × ℚ)) (key : String) (default : ℚ) : ℚ :=
  (data.lookup key).getD default

/-- The 17 `data.get` calls of the `/predict` handler (`app.py` lines 69-87),
in source order, each paired with the default used in the call.  Note the
`duration` default is `1800`, every other default is `0`. -/
def apiFields : List (String × ℚ) :=
  [("radiant_hero_1", 0), ("radiant_hero_2", 0), ("radiant_hero_3", 0),
   ("radiant_hero_4", 0), ("radiant_hero_5", 0),
   ("dire_hero_1", 0), ("dire_hero_2", 0), ("dire_hero_3", 0),
   ("dire_hero_4", 0), ("dire_hero_5", 0),
   ("duration", 1800),
   ("radiant_kills", 0), ("dire_kills", 0),
   ("radiant_gold", 0), ("dire_gold", 0),
   ("radiant_xp", 0), ("dire_xp", 0)]

/-- Field names of the inference path, in the order the handler assembles
the feature row. -/
def apiFieldNames : List String := apiFields.map (fun kv => kv.1)

/-- The feature row assembled by the `/predict` handler (`app.py` lines
69-87): one `data.get` per field, in source order. -/
def extractApiFeatures (data : List (String × ℚ)) : List ℚ :=
  [dataGet data "radiant_hero_1" 0,
   dataGet data "radiant_hero_2" 0,
   dataGet data "radiant_hero_3" 0,
   dataGet data "radiant_hero_4" 0,
   dataGet data "radiant_hero_5" 0,
   dataGet data "dire_hero_1" 0,
   dataGet data "dire_hero_2" 0,
   dataGet data "dire_hero_3" 0,
   dataGet data "dire_hero_4" 0,
   dataGet data "dire_hero_5" 0,
   dataGet data "duration" 1800,
   dataGet data "radiant_kills" 0,
   dataGet data "dire_kills" 0,
   dataGet data "radiant_gold" 0,
   dataGet data "dire_gold" 0,
   dataGet data "radiant_xp" 0,
   dataGet data "dire_xp" 0]

/-- The JSON object returned on a successful prediction
(`app.py` lines 95-100). -/
structure PredictResponse where
  radiant_win_probability : ℚ
  dire_win_probability : ℚ
  predicted_winner : String
  confidence : ℚ
deriving DecidableEq

/-- Build the success response from the model's scalar output `p`
(`app.py` lines 93-100). -/
def mkPredictResponse (p : ℚ) : PredictResponse :=
  { radiant_win_probability := p
    dire_win_probability := 1 - p
    predicted_winner := if p > 0.5 then "Radiant" else "Dire"
    confidence := max p (1 - p) }

/-- A handler result: either the success JSON or `jsonify({error: msg})`. -/
inductive PredictResult where
  | success (resp : PredictResponse)
  | failure (msg : String)
deriving DecidableEq

/-- The `/predict` route (`app.py` lines 59-103).  `modelLoaded` models the
`model is None` check; `body` models `request.json`, which raises on a
malformed body (the `.error` case carries the exception text); `runModel`
models `scaler.transform` plus `model.predict`, which may raise (`.error`)
or produce the scalar probability.  Every exception inside the `try` block
is caught by the single `except` clause and becomes a 400 response with the
exception text. -/
def predictRoute (modelLoaded : Bool)
    (body : Except String (List (String × ℚ)))
    (runModel : List ℚ → Except String ℚ) : Nat × PredictResult :=
  if modelLoaded = false then
    (500, .failure "Model not loaded")
  else
    match body with
    | .error e => (400, .failure e)
    | .ok data =>
      match runModel (extractApiFeatures data) with
      | .error e => (400, .failure e)
      | .ok p => (200, .success (mkPredictResponse p))

end App

namespace AnalyzeData

/-- One entry of a match's `players` array, with the counters the extractor
reads.  Missing keys default to `0` in the source (`player.get(k, 0)`), so a
total field of the same type is an equivalent model. -/
structure Player where
  player_slot : Nat
  hero_id : Int
  kills : Int
  total_gold : Int
  total_xp : Int
deriving DecidableEq

/-- One raw match record as consumed by `MatchAnalyzer.extract_features`. -/
structure Match where
  match_id : Int
  radiant_win : Bool
  duration : Int
  players : List Player
deriving DecidableEq

/-- Players appended to `radiant_heroes`: `player_slot < 128`
(`analyze_data.py` line 43). -/
def radiantPlayers (m : Match) : List Player :=
  m.players.filter (fun p => decide (p.player_slot < 128))

/-- Players appended to `dire_heroes`: the `else` branch of
`player_slot < 128` (`analyze_data.py` line 45). -/
def direPlayers (m : Match) : List Player :=
  m.players.filter (fun p => !(decide (p.player_slot < 128)))

/-- One row of the processed DataFrame, fields in the dict-insertion order
of `analyze_data.py` lines 62-82. -/
structure FeatureRow where
  match_id : Int
  radiant_win : Nat
  duration : Int
  radiant_hero_1 : Int
  radiant_hero_2 : Int
  radiant_hero_3 : Int
  radiant_hero_4 : Int
  radiant_hero_5 : Int
  dire_hero_1 : Int
  dire_hero_2 : Int
  dire_hero_3 : Int
  dire_hero_4 : Int
  dire_hero_5 : Int
  radiant_kills : Int
  dire_kills : Int
  radiant_gold : Int
  dire_gold : Int
  radiant_xp : Int
  dire_xp : Int
deriving DecidableEq

/-- Per-record body of the extraction loop (`analyze_data.py` lines 28-88):
partition heroes by slot, skip the record (`continue`, returning `none`)
unless both sides have exactly five players, otherwise aggregate the team
counters and build the row. -/
def extractOne (m : Match) : Option FeatureRow :=
  let radiant_heroes := (radiantPlayers m).map (fun p => p.hero_id)
  let dire_heroes := (direPlayers m).map (fun p => p.hero_id)
  if h5 : radiant_heroes.length = 5 ∧ dire_heroes.length = 5 then
    some
      { match_id := m.match_id
        radiant_win := if m.radiant_win then 1 else 0
        duration := m.duration
        radiant_hero_1 := radiant_heroes.get ⟨0, by omega⟩
        radiant_hero_2 := radiant_heroes.get ⟨1, by omega⟩
        radiant_hero_3 := radiant_heroes.get ⟨2, by omega⟩
        radiant_hero_4 := radiant_heroes.get ⟨3, by omega⟩
        radiant_hero_5 := radiant_heroes.get ⟨4, by omega⟩
        dire_hero_1 := dire_heroes.get ⟨0, by omega⟩
        dire_hero_2 := dire_heroes.get ⟨1, by omega⟩
        dire_hero_3 := dire_heroes.get ⟨2, by omega⟩
        dire_hero_4 := dire_heroes.get ⟨3, by omega⟩
        dire_hero_5 := dire_heroes.get ⟨4, by omega⟩
        radiant_kills :=
          ((m.players.filter (fun p => decide (p.player_slot < 128))).map
            (fun p => p.kills)).sum
        dire_kills :=
          ((m.players.filter (fun p => decide (128 ≤ p.player_slot))).map
            (fun p => p.kills)).sum
        radiant_gold :=
          ((m.players.filter (fun p => decide (p.player_slot < 128))).map
            (fun p => p.total_gold)).sum
        dire_gold :=
          ((m.players.filter (fun p => decide (128 ≤ p.player_slot))).map
            (fun p => p.total_gold)).sum
        radiant_xp :=
          ((m.players.filter (fun p => decide (p.player_slot < 128))).map
            (fun p => p.total_xp)).sum
        dire_xp :=
          ((m.players.filter (fun p => decide (128 ≤ p.player_slot))).map
            (fun p => p.total_xp)).sum }
  else
    none

/-- The whole extraction loop: skipped records contribute nothing, the loop
itself never fails (total function). -/
def extract_features (ms : List Match) : List FeatureRow :=
  ms.filterMap extractOne

/-- The 5-versus-5 acceptance test of `analyze_data.py` line 49. -/
def is5v5 (m : Match) : Bool :=
  decide ((radiantPlayers m).length = 5) && decide ((direPlayers m).length = 5)

/-- The 17 feature fields of a row in the `feature_cols` order used by the
training path (`scripts/train_model.py` lines 33-38). -/
def featureList (r : FeatureRow) : List Int :=
  [r.radiant_hero_1, r.radiant_hero_2, r.radiant_hero_3, r.radiant_hero_4,
   r.radiant_hero_5, r.dire_hero_1, r.dire_hero_2, r.dire_hero_3,
   r.dire_hero_4, r.dire_hero_5, r.duration, r.radiant_kills, r.dire_kills,
   r.radiant_gold, r.dire_gold, r.radiant_xp, r.dire_xp]

/-- Parse a 17-entry vector back into the named fields, positionally by the
training column order `feature_cols` (match id and label supplied
separately, as in the processed CSV). -/
def vecToRow (mid : Int) (rw : Nat) (v : List Int) : Option FeatureRow :=
  match v with
  | [h1, h2, h3, h4, h5, h6, h7, h8, h9, h10, dur, rk, dk, rg, dg, rx, dx] =>
    some
      { match_id := mid
        radiant_win := rw
        duration := dur
        radiant_hero_1 := h1
        radiant_hero_2 := h2
        radiant_hero_3 := h3
        radiant_hero_4 := h4
        radiant_hero_5 := h5
        dire_hero_1 := h6
        dire_hero_2 := h7
        dire_hero_3 := h8
        dire_hero_4 := h9
        dire_hero_5 := h10
        radiant_kills := rk
        dire_kills := dk
        radiant_gold := rg
        dire_gold := dg
        radiant_xp := rx
        dire_xp := dx }
  | _ => none

end AnalyzeData

namespace TrainScript

/-- The training feature-column order, copied from
`scripts/train_model.py` lines 33-38. -/
def feature_cols : List String :=
  ["radiant_hero_1", "radiant_hero_2", "radiant_hero_3", "radiant_hero_4",
   "radiant_hero_5",
   "dire_hero_1", "dire_hero_2", "dire_hero_3", "dire_hero_4", "dire_hero_5",
   "duration", "radiant_kills", "dire_kills",
   "radiant_gold", "dire_gold", "radiant_xp", "dire_xp"]

/-- Model of sklearn's `train_test_split(X, y, test_size=…, random_state=…)`:
`σ` is the input reordered by the seeded shuffle and `nTest` the computed
test count; the result is `(train, test)`. -/
def train_test_split {α : Type} (σ : List α) (nTest : Nat) :
    List α × List α :=
  (σ.drop nTest, σ.take nTest)

/-- The arguments `Dota2ModelTrainer.train` (lines 92-121) passes to
`keras.Model.fit`: `fit(X_train, y_train, validation_data=(X_test, y_test),
callbacks=[early_stop, reduce_lr], …)`.  The early-stopping and
LR-reduction callbacks monitor `val_loss`, computed on `validationX`. -/
structure FitCall (α : Type) where
  trainX : List α
  validationX : List α
deriving DecidableEq

/-- Data flow of `scripts/train_model.py` `main` (lines 195-213):
`prepare_data` splits the rows into train and test, `train` fits with
`validation_data = (X_test, y_test)`, and `evaluate` measures the metrics
on that same `X_test`.  Returns (the fit call, the evaluation partition). -/
def trainPipeline {α : Type} (σ : List α) (nTest : Nat) :
    FitCall α × List α :=
  let s := train_test_split σ nTest
  ({ trainX := s.1, validationX := s.2 }, s.2)

end TrainScript

namespace Dota2MetaModel

/-- The shape of a numpy feature matrix.  Only the shape steers the control
flow of `Dota2MetaModel.train`; the entries are handed unchanged to the
external framework. -/
structure NpMatrix where
  rows : Nat
  cols : Nat
deriving DecidableEq

/-- The fixed network topology built by `build_model`
(`src/models/dota2_model.py` lines 35-67): dense layers 256/128/64/32 and a
1-unit sigmoid output, with the input dimension taken from its argument. -/
structure ModelConfig where
  inputDim : Nat
  hiddenLayers : List Nat
  outputUnits : Nat
  outputActivation : String
deriving DecidableEq

/-- `build_model(input_shape)` (`src/models/dota2_model.py` lines 35-67). -/
def build_model (input_shape : Nat) : ModelConfig :=
  { inputDim := input_shape
    hiddenLayers := [256, 128, 64, 32]
    outputUnits := 1
    outputActivation := "sigmoid" }

/-- sklearn's `StandardScaler.fit_transform`, whose `check_array` call
raises a `ValueError` when the sample axis is empty (`ensure_min_samples`,
checked first) or when the feature axis is empty (`ensure_min_features`),
and otherwise succeeds on any width.  This is external-library behaviour,
modelled here because `train` relies on it. -/
def scaler_fit_transform (x : NpMatrix) : Except String NpMatrix :=
  if x.rows = 0 then
    .error "Found array with 0 sample(s) while a minimum of 1 is required"
  else if x.cols = 0 then
    .error "Found array with 0 feature(s) while a minimum of 1 is required"
  else
    .ok x

/-- `Dota2MetaModel.train` (`src/models/dota2_model.py` lines 69-133),
restricted to the steps that can reject an input: it scales the training
matrix, then builds the network with `input_shape = X_train.shape[1]` and
fits.  The method itself performs no validation of the sample count or of
the matrix width against the fixed 17-field schema. -/
def train (x_train : NpMatrix) : Except String ModelConfig :=
  match scaler_fit_transform x_train with
  | .error e => .error e
  | .ok _ => .ok (build_model x_train.cols)

end Dota2MetaModel

namespace Fetcher

/-- Loop body of `OpenDotaFetcher.get_pro_matches` (`fetch_open_dota.py`
lines 65-98).  The paginated source is modelled as the list of successive
batches the cursor walks through (the cursor `less_than_match_id` always
selects the next unseen batch); an exhausted list behaves like the empty
response the API returns past the end.  The loop stops once `limit` records
are accumulated, on an empty batch, or on a batch shorter than 100. -/
def proLoop {α : Type} (limit : Nat) : List (List α) → List α → List α
  | [], acc => acc
  | b :: rest, acc =>
    if acc.length < limit then
      if b.isEmpty then acc
      else if b.length < 100 then acc ++ b
      else proLoop limit rest (acc ++ b)
    else acc

/-- `get_pro_matches(limit)`: run the loop from an empty accumulator, then
truncate with `matches[:limit]`. -/
def get_pro_matches {α : Type} (limit : Nat) (batches : List (List α)) :
    List α :=
  (proLoop limit batches []).take limit

/-- Loop body of `OpenDotaFetcher.get_public_matches`
(`src/data/open_dota_fetcher.py` lines 129-163): identical except that it
lacks the short-batch break. -/
def publicLoop {α : Type} (limit : Nat) : List (List α) → List α → List α
  | [], acc => acc
  | b :: rest, acc =>
    if acc.length < limit then
      if b.isEmpty then acc
      else publicLoop limit rest (acc ++ b)
    else acc

/-- `get_public_matches(mmr_bracket, limit)`: same loop, then
`matches[:limit]`. -/
def get_public_matches {α : Type} (limit : Nat) (batches : List (List α)) :
    List α :=
  (publicLoop limit batches []).take limit

end Fetcher

namespace StoreDb

open AnalyzeData in
/-- One document of the `matches` collection: the raw match plus the
`_id := match['match_id']` key and the `stored_at` timestamp that
`store_matches` adds (`scripts/store_database.py` lines 44-47). -/
structure StoredDoc where
  id : Int
  body : AnalyzeData.Match
  stored_at : Nat
deriving DecidableEq

/-- Build the document `store_matches` upserts for one match at time
`now`. -/
def mkDoc (now : Nat) (m : AnalyzeData.Match) : StoredDoc :=
  { id := m.match_id, body := m, stored_at := now }

/-- MongoDB's `ReplaceOne(filter={_id: d.id}, replacement=d, upsert=True)`:
replace the first document whose `_id` matches, or append the new document
when no `_id` matches. -/
def replaceOne (coll : List StoredDoc) (d : StoredDoc) : List StoredDoc :=
  match coll with
  | [] => [d]
  | c :: cs => if c.id = d.id then d :: cs else c :: replaceOne cs d

/-- `DatabaseManager.store_matches` (`scripts/store_database.py` lines
44-61): stamp every match with `stored_at = now` and `_id = match_id`, then
`bulk_write` the `ReplaceOne` upserts in order. -/
def store_matches (now : Nat) (coll : List StoredDoc)
    (ms : List AnalyzeData.Match) : List StoredDoc :=
  ms.foldl (fun c m => replaceOne c (mkDoc now m)) coll

/-- Look a document up by its `_id`, the collection's unique key. -/
def findDoc (coll : List StoredDoc) (k : Int) : Option StoredDoc :=
  coll.find? (fun d => decide (d.id = k))

/-- The last element of `matches` whose `match_id` is `k` — the occurrence
whose upsert wins when `store_matches` processes the list in order. -/
def lastOcc (ms : List AnalyzeData.Match) (k : Int) :
    Option AnalyzeData.Match :=
  match ms with
  | [] => none
  | m :: r =>
    match lastOcc r k with
    | some x => some x
    | none => if m.match_id = k then some m else none

end StoreDb

namespace Examples

/-- A full 5-versus-5 match used to exercise the extraction path. -/
def mFull : AnalyzeData.Match :=
  { match_id := 7
    radiant_win := true
    duration := 1900
    players :=
      [{ player_slot := 0, hero_id := 1, kills := 1, total_gold := 10, total_xp := 20 },
       { player_slot := 1, hero_id := 2, kills := 1, total_gold := 10, total_xp := 20 },
       { player_slot := 2, hero_id := 3, kills := 1, total_gold := 10, total_xp := 20 },
       { player_slot := 3, hero_id := 4, kills := 1, total_gold := 10, total_xp := 20 },
       { player_slot := 4, hero_id := 5, kills := 1, total_gold := 10, total_xp := 20 },
       { player_slot := 128, hero_id := 6, kills := 2, total_gold := 11, total_xp := 21 },
       { player_slot := 129, hero_id := 7, kills := 2, total_gold := 11, total_xp := 21 },
       { player_slot := 130, hero_id := 8, kills := 2, total_gold := 11, total_xp := 21 },
       { player_slot := 131, hero_id := 9, kills := 2, total_gold := 11, total_xp := 21 },
       { player_slot := 132, hero_id := 10, kills := 2, total_gold := 11, total_xp := 21 }] }

/-- A malformed match (a single participant), rejected by the extractor. -/
def mShort : AnalyzeData.Match :=
  { match_id := 8
    radiant_win := false
    duration := 100
    players :=
      [{ player_slot := 0, hero_id := 1, kills := 0, total_gold := 0, total_xp := 0 }] }

/-- The row the extractor produces for `mFull`. -/
def rowFull : AnalyzeData.FeatureRow :=
  { match_id := 7
    radiant_win := 1
    duration := 1900
    radiant_hero_1 := 1
    radiant_hero_2 := 2
    radiant_hero_3 := 3
    radiant_hero_4 := 4
    radiant_hero_5 := 5
    dire_hero_1 := 6
    dire_hero_2 := 7
    dire_hero_3 := 8
    dire_hero_4 := 9
    dire_hero_5 := 10
    radiant_kills := 5
    dire_kills := 10
    radiant_gold := 50
    dire_gold := 55
    radiant_xp := 100
    dire_xp := 105 }

/-- A minimal match used to exercise the storage path. -/
def mStore : AnalyzeData.Match :=
  { match_id := 7, radiant_win := true, duration := 100, players := [] }

end Examples

namespace RootTrain

/-- Data split of `train_model.py` `main` (lines 278-283): two chained
`train_test_split` calls.  `σ1` is the seeded shuffle of the whole dataset
(first call, `test_size=0.3`); `σ2` is the seeded shuffle of the temp part
(second call, `test_size=0.5`).  Returns (train, val, test). -/
def splitPipeline {α : Type} (σ1 σ2 : List α) (k1 k2 : Nat) :
    List α × List α × List α :=
  let s1 := TrainScript.train_test_split σ1 k1
  let s2 := TrainScript.train_test_split σ2 k2
  (s1.1, s2.1, s2.2)

end RootTrain

/-- C1: with a loaded model producing probability p, the `/predict` response
has `radiant_win_probability = p`, `dire_win_probability = 1 - p` (the two
fields sum to 1), `confidence` equal to the larger of the two, and
`predicted_winner = "Radiant"` iff `radiant_win_probability > 0.5`. -/
theorem c1_predict_response (data : List (String × ℚ))
    (runModel : List ℚ → Except String ℚ) (p : ℚ)
    (h : runModel (App.extractApiFeatures data) = .ok p) :
    App.predictRoute true (.ok data) runModel =
      (200, .success (App.mkPredictResponse p)) ∧
    (App.mkPredictResponse p).radiant_win_probability = p ∧
    (App.mkPredictResponse p).dire_win_probability = 1 - p ∧
    (App.mkPredictResponse p).radiant_win_probability +
      (App.mkPredictResponse p).dire_win_probability = 1 ∧
    (App.mkPredictResponse p).confidence =
      max (App.mkPredictResponse p).radiant_win_probability
        (App.mkPredictResponse p).dire_win_probability ∧
    ((App.mkPredictResponse p).predicted_winner = "Radiant" ↔
      (App.mkPredictResponse p).radiant_win_probability > 0.5) := by
  refine ⟨by simp [App.predictRoute, h], rfl, rfl,
    by simp only [App.mkPredictResponse]; ring, rfl, ?_⟩
  by_cases hp : p > 0.5 <;> simp [App.mkPredictResponse, hp]

/-- C1 witness: the theorem instantiated at an empty body and a model that
returns 3/4. -/
theorem c1_witness :
    App.predictRoute true (.ok []) (fun _ => Except.ok (3 / 4 : ℚ)) =
      (200, .success (App.mkPredictResponse (3 / 4))) ∧
    (App.mkPredictResponse (3 / 4 : ℚ)).radiant_win_probability = 3 / 4 ∧
    (App.mkPredictResponse (3 / 4 : ℚ)).dire_win_probability = 1 - 3 / 4 ∧
    (App.mkPredictResponse (3 / 4 : ℚ)).radiant_win_probability +
      (App.mkPredictResponse (3 / 4 : ℚ)).dire_win_probability = 1 ∧
    (App.mkPredictResponse (3 / 4 : ℚ)).confidence =
      max (App.mkPredictResponse (3 / 4 : ℚ)).radiant_win_probability
        (App.mkPredictResponse (3 / 4 : ℚ)).dire_win_probability ∧
    ((App.mkPredictResponse (3 / 4 : ℚ)).predicted_winner = "Radiant" ↔
      (App.mkPredictResponse (3 / 4 : ℚ)).radiant_win_probability > 0.5) :=
  c1_predict_response [] (fun _ => Except.ok (3 / 4)) (3 / 4) rfl

/-- C2 counterexample: on an empty request body the handler's feature row is
not all zeros — the `duration` slot (index 10) is filled with 1800, so the
claim that every absent field, including `duration`, defaults to zero is
false. -/
theorem c2_counterexample :
    App.extractApiFeatures [] =
      [0, 0, 0, 0, 0, 0, 0, 0, 0, 0, 1800, 0, 0, 0, 0, 0, 0] ∧
    (App.extractApiFeatures [])[10]? = some 1800 ∧ (1800 : ℚ) ≠ 0 := by
  refine ⟨by decide, by decide, by decide⟩

/-- C2 amended: every one of the 17 fields except `duration` is treated as 0
when absent from the body, `duration` is treated as 1800 when absent, and
extraction never fails (it always yields the 17-entry row). -/
theorem c2_amended (data : List (String × ℚ)) (i : Nat) (name : String)
    (hn : App.apiFieldNames[i]? = some name) (hd : name ≠ "duration")
    (habs : data.lookup name = none) :
    (App.extractApiFeatures data).length = 17 ∧
    (App.extractApiFeatures data)[i]? = some 0 ∧
    (data.lookup "duration" = none →
      (App.extractApiFeatures data)[10]? = some 1800) := by
  have hlen : App.apiFieldNames.length = 17 := by decide
  have hi : i < 17 := by
    have := (List.getElem?_eq_some.mp hn).1
    omega
  refine ⟨by simp [App.extractApiFeatures], ?_, ?_⟩
  · interval_cases i
    all_goals
      simp only [App.apiFieldNames, App.apiFields, List.map_cons, List.map_nil,
        List.getElem?_cons_succ, List.getElem?_cons_zero,
        Option.some.injEq] at hn
    all_goals subst hn
    all_goals try exact absurd rfl hd
    all_goals simp [App.extractApiFeatures, App.dataGet, habs]
  · intro hdur
    simp [App.extractApiFeatures, App.dataGet, hdur]

/-- C2 witness: the amended theorem at a body that holds only
`radiant_kills`: index 0 (`radiant_hero_1`) reads 0, index 10 (`duration`)
reads 1800. -/
theorem c2_witness :
    (App.extractApiFeatures [("radiant_kills", 3)]).length = 17 ∧
    (App.extractApiFeatures [("radiant_kills", 3)])[0]? = some 0 ∧
    (([("radiant_kills", (3 : ℚ))].lookup "duration" = none) →
      (App.extractApiFeatures [("radiant_kills", 3)])[10]? = some 1800) :=
  c2_amended [("radiant_kills", 3)] 0 "radiant_hero_1" (by decide) (by decide)
    (by decide)

/-- C3 counterexample: an internal exception raised while handling the
request (here the model run failing with "boom") is answered with status
400 — a client error, not the 5xx the claim requires, and a 4xx that does
not come from a malformed body. -/
theorem c3_counterexample :
    App.predictRoute true (.ok []) (fun _ => .error "boom") =
      (400, .failure "boom") ∧ (400 : Nat) < 500 := by
  refine ⟨by decide, by decide⟩

/-- C3 amended: a malformed JSON body yields 400 with the exception text;
a missing model yields 500 with the distinct message `Model not loaded`;
any other internal exception also yields 400 (not a 5xx) carrying the
exception text, because the handler's single catch-all maps every exception
inside the `try` block to status 400. -/
theorem c3_amended (body : Except String (List (String × ℚ)))
    (runModel : List ℚ → Except String ℚ) :
    App.predictRoute false body runModel =
      (500, .failure "Model not loaded") ∧
    (∀ e, body = .error e →
      App.predictRoute true body runModel = (400, .failure e)) ∧
    (∀ data e, body = .ok data →
      runModel (App.extractApiFeatures data) = .error e →
      App.predictRoute true body runModel = (400, .failure e)) := by
  refine ⟨by simp [App.predictRoute], ?_, ?_⟩
  · intro e he
    subst he
    simp [App.predictRoute]
  · intro data e hb hr
    subst hb
    simp [App.predictRoute, hr]

/-- C3 witness: the amended theorem exercised on all three paths — model
missing, malformed body, and an internal exception. -/
theorem c3_witness :
    App.predictRoute false (.error "bad json") (fun _ => Except.ok 1) =
      (500, .failure "Model not loaded") ∧
    App.predictRoute true (.error "bad json") (fun _ => Except.ok 1) =
      (400, .failure "bad json") ∧
    App.predictRoute true (.ok []) (fun _ => .error "exploded") =
      (400, .failure "exploded") :=
  ⟨(c3_amended (.error "bad json") (fun _ => Except.ok 1)).1,
   (c3_amended (.error "bad json") (fun _ => Except.ok 1)).2.1 "bad json" rfl,
   (c3_amended (.ok []) (fun _ => .error "exploded")).2.2 [] "exploded" rfl
     rfl⟩

/-- C5: the inference path of `/predict` assembles the 17 features in
exactly the order given by the training path's `feature_cols` — the handler
row is the `data.get` of each `apiFields` entry in order, the name list of
the inference assembly equals `feature_cols` position by position, and a
vector built from a record (in that shared order) parses back by field name
into the same record. -/
theorem c5_field_order_parity :
    (∀ data, App.extractApiFeatures data =
      App.apiFields.map (fun kv => App.dataGet data kv.1 kv.2)) ∧
    App.apiFieldNames = TrainScript.feature_cols ∧
    (∀ r : AnalyzeData.FeatureRow,
      AnalyzeData.vecToRow r.match_id r.radiant_win
        (AnalyzeData.featureList r) = some r) :=
  ⟨fun _ => rfl, rfl, fun _ => rfl⟩

/-- C6 counterexample: running the training pipeline on the concrete
dataset [10,20,30,40,50] with one test row, the row 10 is the whole test
partition and it is passed to the fit call as its validation data —
contradicting the claim that no element of the test partition appears in
the validation data. -/
theorem c6_counterexample :
    (TrainScript.trainPipeline [10, 20, 30, 40, 50] 1).1.validationX =
      [10] ∧
    (TrainScript.trainPipeline [10, 20, 30, 40, 50] 1).2 = [10] ∧
    (10 : Nat) ∈ (TrainScript.trainPipeline [10, 20, 30, 40, 50] 1).2 ∧
    (10 : Nat) ∈
      (TrainScript.trainPipeline [10, 20, 30, 40, 50] 1).1.validationX := by
  refine ⟨by decide, by decide, by decide, by decide⟩

/-- C6 amended: the metrics partition is disjoint from the gradient-descent
training rows (when the shuffled input has no duplicates), but it is not
held out from fitting — the very same partition is passed to `fit` as
`validation_data`, where the early-stopping and LR callbacks monitor it. -/
theorem c6_amended {α : Type} (σ : List α) (nTest : Nat) :
    (TrainScript.trainPipeline σ nTest).1.validationX =
      (TrainScript.trainPipeline σ nTest).2 ∧
    (σ.Nodup → ∀ x ∈ (TrainScript.trainPipeline σ nTest).2,
      x ∉ (TrainScript.trainPipeline σ nTest).1.trainX) := by
  refine ⟨rfl, ?_⟩
  intro hnd x hx hx'
  have hsplit : σ.take nTest ++ σ.drop nTest = σ := List.take_append_drop _ _
  have hnd2 : (σ.take nTest ++ σ.drop nTest).Nodup := by rw [hsplit]; exact hnd
  exact List.disjoint_of_nodup_append hnd2 hx hx'

/-- C6 witness: the amended theorem at the duplicate-free dataset
[1, 2, 3] with one test row. -/
theorem c6_witness :
    (TrainScript.trainPipeline [1, 2, 3] 1).1.validationX =
      (TrainScript.trainPipeline [1, 2, 3] 1).2 ∧
    (∀ x ∈ (TrainScript.trainPipeline [1, 2, 3] 1).2,
      x ∉ (TrainScript.trainPipeline [1, 2, 3] 1).1.trainX) :=
  ⟨(c6_amended [1, 2, 3] 1).1, (c6_amended [1, 2, 3] 1).2 (by decide)⟩

/-- C7 counterexample: fitting on a 200-row matrix of width 5 (≠ 17) does
not fail at all — `train` succeeds and silently builds the network with
input dimension 5. -/
theorem c7_counterexample :
    Dota2MetaModel.train { rows := 200, cols := 5 } =
      .ok (Dota2MetaModel.build_model 5) ∧
    (Dota2MetaModel.build_model 5).inputDim = 5 ∧ (5 : Nat) ≠ 17 := by
  refine ⟨rfl, rfl, by decide⟩

/-- C7 amended: the training code performs no schema-width or sample-count
validation of its own — on any matrix with at least one row and at least
one column it succeeds and takes the network input dimension from the
matrix width, whatever it is (in particular widths other than 17); the only
rejections are the scaler library's own minimum-samples and
minimum-features checks, not a repository-level test against the 17-field
schema. -/
theorem c7_amended (x : Dota2MetaModel.NpMatrix) :
    (x.rows ≠ 0 → x.cols ≠ 0 →
      Dota2MetaModel.train x = .ok (Dota2MetaModel.build_model x.cols)) ∧
    (x.rows = 0 →
      Dota2MetaModel.train x =
        .error
          "Found array with 0 sample(s) while a minimum of 1 is required") ∧
    (x.rows ≠ 0 → x.cols = 0 →
      Dota2MetaModel.train x =
        .error
          "Found array with 0 feature(s) while a minimum of 1 is required") := by
  refine ⟨fun hr hc => ?_, fun hr => ?_, fun hr hc => ?_⟩
  · simp [Dota2MetaModel.train, Dota2MetaModel.scaler_fit_transform, hr, hc]
  · simp [Dota2MetaModel.train, Dota2MetaModel.scaler_fit_transform, hr]
  · simp [Dota2MetaModel.train, Dota2MetaModel.scaler_fit_transform, hr, hc]

/-- C7 witness: the amended theorem at a 3-by-5 matrix (fits, width 5 ≠
17), at an empty 0-by-17 matrix (scaler sample-count error) and at a 4-by-0
matrix (scaler feature-count error). -/
theorem c7_witness :
    Dota2MetaModel.train { rows := 3, cols := 5 } =
      .ok (Dota2MetaModel.build_model 5) ∧
    Dota2MetaModel.train { rows := 0, cols := 17 } =
      .error
        "Found array with 0 sample(s) while a minimum of 1 is required" ∧
    Dota2MetaModel.train { rows := 4, cols := 0 } =
      .error
        "Found array with 0 feature(s) while a minimum of 1 is required" :=
  ⟨(c7_amended { rows := 3, cols := 5 }).1 (by decide) (by decide),
   (c7_amended { rows := 0, cols := 17 }).2.1 rfl,
   (c7_amended { rows := 4, cols := 0 }).2.2 (by decide) rfl⟩

/-- Loop invariant for `get_pro_matches`: with uniform batches of 100, the
accumulated length below the limit grows by whole batches. -/
theorem proLoop_min_length {α : Type} (limit : Nat) (bs : List (List α))
    (acc : List α) (h : ∀ b ∈ bs, b.length = 100) :
    min limit (Fetcher.proLoop limit bs acc).length =
      min limit (acc.length + 100 * bs.length) := by
  induction bs generalizing acc with
  | nil => simp [Fetcher.proLoop]
  | cons b rest ih =>
    have hb : b.length = 100 := h b (List.mem_cons_self _ _)
    by_cases hacc : acc.length < limit
    · cases b with
      | nil => simp at hb
      | cons x xs =>
        rw [Fetcher.proLoop]
        have hlt : ¬((x :: xs).length < 100) := by omega
        simp only [hacc, if_true, List.isEmpty_cons, hlt, if_false,
          Bool.false_eq_true]
        rw [ih (acc ++ x :: xs) (fun b hbm => h b (List.mem_cons_of_mem _ hbm))]
        rw [List.length_append]
        simp only [List.length_cons] at hb ⊢
        omega
    · rw [Fetcher.proLoop]
      simp only [hacc, if_false]
      omega

/-- Same invariant for `get_public_matches`' loop. -/
theorem publicLoop_min_length {α : Type} (limit : Nat) (bs : List (List α))
    (acc : List α) (h : ∀ b ∈ bs, b.length = 100) :
    min limit (Fetcher.publicLoop limit bs acc).length =
      min limit (acc.length + 100 * bs.length) := by
  induction bs generalizing acc with
  | nil => simp [Fetcher.publicLoop]
  | cons b rest ih =>
    have hb : b.length = 100 := h b (List.mem_cons_self _ _)
    by_cases hacc : acc.length < limit
    · cases b with
      | nil => simp at hb
      | cons x xs =>
        rw [Fetcher.publicLoop]
        simp only [hacc, if_true, List.isEmpty_cons, Bool.false_eq_true,
          if_false]
        rw [ih (acc ++ x :: xs) (fun b hbm => h b (List.mem_cons_of_mem _ hbm))]
        rw [List.length_append]
        simp only [List.length_cons] at hb ⊢
        omega
    · rw [Fetcher.publicLoop]
      simp only [hacc, if_false]
      omega

/-- C9: against a paginated source whose batches each hold 100 records,
both match-fetching loops return exactly `min(limit, total available)`
records — in particular exactly `limit` records whenever at least `limit`
exist, with the final batch truncated by `matches[:limit]`. -/
theorem c9_fetch_limit {α : Type} (limit : Nat) (batches : List (List α))
    (h : ∀ b ∈ batches, b.length = 100) :
    (Fetcher.get_pro_matches limit batches).length =
      min limit (100 * batches.length) ∧
    (Fetcher.get_public_matches limit batches).length =
      min limit (100 * batches.length) := by
  constructor
  · rw [Fetcher.get_pro_matches, List.length_take]
    have := proLoop_min_length limit batches [] h
    simpa using this
  · rw [Fetcher.get_public_matches, List.length_take]
    have := publicLoop_min_length limit batches [] h
    simpa using this

/-- C9 witness: three batches of 100 and `limit = 250` yield exactly 250
records, not 300. -/
theorem c9_witness :
    (Fetcher.get_pro_matches 250
      [List.replicate 100 (0 : Nat), List.replicate 100 0,
        List.replicate 100 0]).length = 250 ∧
    (Fetcher.get_public_matches 250
      [List.replicate 100 (0 : Nat), List.replicate 100 0,
        List.replicate 100 0]).length = 250 := by
  have h := c9_fetch_limit 250
      [List.replicate 100 (0 : Nat), List.replicate 100 0,
        List.replicate 100 0]
      (by
        intro b hb
        rcases List.mem_cons.mp hb with rfl | hb
        · exact List.length_replicate _ _
        rcases List.mem_cons.mp hb with rfl | hb
        · exact List.length_replicate _ _
        rcases List.mem_cons.mp hb with rfl | hb
        · exact List.length_replicate _ _
        cases hb)
  obtain ⟨h1, h2⟩ := h
  constructor
  · rw [h1]; decide
  · rw [h2]; decide

/-- C8: for a dataset of N rows, the two chained splits of `main` produce
train/val/test partitions that are pairwise disjoint and together a
permutation of the full index set 0..N-1 (nothing duplicated, nothing
dropped).  `σ1` is the seeded shuffle of `range N`, `σ2` the seeded shuffle
of the temp part handed to the second split. -/
theorem c8_split_partition (N k1 k2 : Nat) (σ1 σ2 : List Nat)
    (h1 : σ1.Perm (List.range N))
    (h2 : σ2.Perm (TrainScript.train_test_split σ1 k1).2) :
    (RootTrain.splitPipeline σ1 σ2 k1 k2).1.Disjoint
      (RootTrain.splitPipeline σ1 σ2 k1 k2).2.1 ∧
    (RootTrain.splitPipeline σ1 σ2 k1 k2).1.Disjoint
      (RootTrain.splitPipeline σ1 σ2 k1 k2).2.2 ∧
    (RootTrain.splitPipeline σ1 σ2 k1 k2).2.1.Disjoint
      (RootTrain.splitPipeline σ1 σ2 k1 k2).2.2 ∧
    ((RootTrain.splitPipeline σ1 σ2 k1 k2).1 ++
      (RootTrain.splitPipeline σ1 σ2 k1 k2).2.1 ++
      (RootTrain.splitPipeline σ1 σ2 k1 k2).2.2).Perm (List.range N) := by
  have h2' : σ2.Perm (σ1.take k1) := h2
  have nd1 : σ1.Nodup := h1.nodup_iff.mpr (List.nodup_range N)
  have hsd : σ1.take k1 ++ σ1.drop k1 = σ1 := List.take_append_drop k1 σ1
  have ndtd : (σ1.take k1 ++ σ1.drop k1).Nodup := by rw [hsd]; exact nd1
  have hdisj1 : (σ1.take k1).Disjoint (σ1.drop k1) :=
    List.disjoint_of_nodup_append ndtd
  have nd2 : σ2.Nodup := h2'.nodup_iff.mpr (List.nodup_append.mp ndtd).1
  have hsd2 : σ2.take k2 ++ σ2.drop k2 = σ2 := List.take_append_drop k2 σ2
  have ndtd2 : (σ2.take k2 ++ σ2.drop k2).Nodup := by rw [hsd2]; exact nd2
  have hdisj2 : (σ2.take k2).Disjoint (σ2.drop k2) :=
    List.disjoint_of_nodup_append ndtd2
  refine ⟨?_, ?_, ?_, ?_⟩
  · intro a ha hb
    exact hdisj1 (h2'.mem_iff.mp (List.mem_of_mem_drop hb)) ha
  · intro a ha hb
    exact hdisj1 (h2'.mem_iff.mp (List.mem_of_mem_take hb)) ha
  · intro a ha hb
    exact hdisj2 hb ha
  · show (σ1.drop k1 ++ σ2.drop k2 ++ σ2.take k2).Perm (List.range N)
    have p2 : (σ2.drop k2 ++ σ2.take k2).Perm (σ1.take k1) := by
      have hp := @List.perm_append_comm _ (σ2.drop k2) (σ2.take k2)
      rw [hsd2] at hp
      exact hp.trans h2'
    have q1 : (σ1.drop k1 ++ (σ2.drop k2 ++ σ2.take k2)).Perm
        (σ1.drop k1 ++ σ1.take k1) := List.Perm.append_left _ p2
    have q2 : (σ1.drop k1 ++ σ1.take k1).Perm σ1 := by
      have hp := @List.perm_append_comm _ (σ1.drop k1) (σ1.take k1)
      rwa [hsd] at hp
    rw [List.append_assoc]
    exact (q1.trans q2).trans h1

/-- C8 witness: the split at N = 4 with shuffles [2,0,3,1] (k1 = 2) and
[0,2] (k2 = 1): train [3,1], val [2], test [0]. -/
theorem c8_witness :
    (RootTrain.splitPipeline [2, 0, 3, 1] [0, 2] 2 1).1.Disjoint
      (RootTrain.splitPipeline [2, 0, 3, 1] [0, 2] 2 1).2.1 ∧
    (RootTrain.splitPipeline [2, 0, 3, 1] [0, 2] 2 1).1.Disjoint
      (RootTrain.splitPipeline [2, 0, 3, 1] [0, 2] 2 1).2.2 ∧
    (RootTrain.splitPipeline [2, 0, 3, 1] [0, 2] 2 1).2.1.Disjoint
      (RootTrain.splitPipeline [2, 0, 3, 1] [0, 2] 2 1).2.2 ∧
    ((RootTrain.splitPipeline [2, 0, 3, 1] [0, 2] 2 1).1 ++
      (RootTrain.splitPipeline [2, 0, 3, 1] [0, 2] 2 1).2.1 ++
      (RootTrain.splitPipeline [2, 0, 3, 1] [0, 2] 2 1).2.2).Perm
      (List.range 4) :=
  c8_split_partition 4 2 1 [2, 0, 3, 1] [0, 2] (by decide) (by decide)

/-- The extractor accepts a record exactly when both slot groups have five
players. -/
theorem extractOne_isSome (m : AnalyzeData.Match) :
    (AnalyzeData.extractOne m).isSome ↔
      ((AnalyzeData.radiantPlayers m).length = 5 ∧
        (AnalyzeData.direPlayers m).length = 5) := by
  rcases Decidable.em
      (((AnalyzeData.radiantPlayers m).map (fun p => p.hero_id)).length = 5 ∧
        ((AnalyzeData.direPlayers m).map (fun p => p.hero_id)).length = 5) with
    h | h
  · simp only [AnalyzeData.extractOne]
    rw [dif_pos h]
    simp only [Option.isSome_some, true_iff]
    simpa [List.length_map] using h
  · simp only [AnalyzeData.extractOne]
    rw [dif_neg h]
    simp only [Option.isSome_none, false_iff]
    simpa [List.length_map] using h

/-- `is5v5` decides exactly the extractor's acceptance condition. -/
theorem is5v5_iff (m : AnalyzeData.Match) :
    AnalyzeData.is5v5 m = true ↔
      ((AnalyzeData.radiantPlayers m).length = 5 ∧
        (AnalyzeData.direPlayers m).length = 5) := by
  simp [AnalyzeData.is5v5]

/-- A record rejected by the five-a-side test contributes nothing. -/
theorem extractOne_eq_none_of_not5v5 (m : AnalyzeData.Match)
    (h : AnalyzeData.is5v5 m = false) : AnalyzeData.extractOne m = none := by
  rw [← Option.not_isSome_iff_eq_none]
  intro hs
  have := (is5v5_iff m).mpr ((extractOne_isSome m).mp hs)
  rw [h] at this
  exact Bool.noConfusion this

/-- Dropping the rejected records first does not change the extraction
output. -/
theorem extract_features_filter (ms : List AnalyzeData.Match) :
    AnalyzeData.extract_features (ms.filter AnalyzeData.is5v5) =
      AnalyzeData.extract_features ms := by
  induction ms with
  | nil => rfl
  | cons m r ih =>
    cases h : AnalyzeData.is5v5 m
    · have hnone := extractOne_eq_none_of_not5v5 m h
      simp [AnalyzeData.extract_features, List.filter_cons, h,
        List.filterMap_cons, hnone] at ih ⊢
      exact ih
    · obtain ⟨v, hv⟩ := Option.isSome_iff_exists.mp
        ((extractOne_isSome m).mpr ((is5v5_iff m).mp h))
      simp [AnalyzeData.extract_features, List.filter_cons, h,
        List.filterMap_cons, hv] at ih ⊢
      exact ih

/-- Each accepted record contributes exactly one output row. -/
theorem extract_features_length (ms : List AnalyzeData.Match) :
    (AnalyzeData.extract_features ms).length =
      (ms.filter AnalyzeData.is5v5).length := by
  induction ms with
  | nil => rfl
  | cons m r ih =>
    cases h : AnalyzeData.is5v5 m
    · have hnone := extractOne_eq_none_of_not5v5 m h
      simp [AnalyzeData.extract_features, List.filter_cons, h,
        List.filterMap_cons, hnone] at ih ⊢
      exact ih
    · obtain ⟨v, hv⟩ := Option.isSome_iff_exists.mp
        ((extractOne_isSome m).mpr ((is5v5_iff m).mp h))
      simp [AnalyzeData.extract_features, List.filter_cons, h,
        List.filterMap_cons, hv] at ih ⊢
      exact ih

/-- C4: the batch extractor keeps a record exactly when its players split
into five radiant and five dire (`is5v5`); rejected records are skipped
without aborting the batch (the extractor is a total function and dropping
them beforehand changes nothing, with one output row per accepted record);
and every produced row carries exactly 17 feature fields plus a 0/1 label. -/
theorem c4_extraction (ms : List AnalyzeData.Match) (m : AnalyzeData.Match)
    (r : AnalyzeData.FeatureRow) :
    ((AnalyzeData.extractOne m).isSome ↔ AnalyzeData.is5v5 m = true) ∧
    AnalyzeData.extract_features (ms.filter AnalyzeData.is5v5) =
      AnalyzeData.extract_features ms ∧
    (AnalyzeData.extract_features ms).length =
      (ms.filter AnalyzeData.is5v5).length ∧
    (r ∈ AnalyzeData.extract_features ms →
      (AnalyzeData.featureList r).length = 17 ∧
      (r.radiant_win = 0 ∨ r.radiant_win = 1)) := by
  refine ⟨(extractOne_isSome m).trans (is5v5_iff m).symm,
    extract_features_filter ms, extract_features_length ms, ?_⟩
  intro hr
  refine ⟨rfl, ?_⟩
  rcases List.mem_filterMap.mp hr with ⟨m', _, he⟩
  simp only [AnalyzeData.extractOne] at he
  split at he
  · rw [Option.some.injEq] at he
    subst he
    cases hw : m'.radiant_win <;> simp [hw]
  · exact Option.noConfusion he

/-- C4 witness: on the batch [mFull, mShort] the full 5v5 match is kept and
the one-player match dropped; the extracted row has 17 feature fields and
label 1. -/
theorem c4_witness :
    (AnalyzeData.featureList Examples.rowFull).length = 17 ∧
    (Examples.rowFull.radiant_win = 0 ∨ Examples.rowFull.radiant_win = 1) :=
  (c4_extraction [Examples.mFull, Examples.mShort] Examples.mFull
    Examples.rowFull).2.2.2 (by decide)

/-- Lookup after one upsert: the upserted key now maps to the new document,
every other key is untouched. -/
theorem findDoc_replaceOne (c : List StoreDb.StoredDoc)
    (d : StoreDb.StoredDoc) (k : Int) :
    StoreDb.findDoc (StoreDb.replaceOne c d) k =
      if d.id = k then some d else StoreDb.findDoc c k := by
  induction c with
  | nil =>
    by_cases hk : d.id = k <;>
      simp [StoreDb.replaceOne, StoreDb.findDoc, List.find?_cons, hk]
  | cons c cs ih =>
    by_cases h1 : c.id = d.id
    · by_cases hk : d.id = k
      · simp [StoreDb.replaceOne, StoreDb.findDoc, List.find?_cons, h1, hk]
      · have hck : ¬c.id = k := fun hc => hk (h1 ▸ hc)
        simp [StoreDb.replaceOne, StoreDb.findDoc, List.find?_cons, h1, hk,
          hck]
    · by_cases hck : c.id = k
      · have hk : ¬d.id = k := fun hd => h1 (hck.trans hd.symm)
        simp only [StoreDb.replaceOne, if_neg h1]
        simp [StoreDb.findDoc, List.find?_cons, hck, hk]
      · simp only [StoreDb.replaceOne, if_neg h1]
        simp only [StoreDb.findDoc, List.find?_cons] at ih ⊢
        simp [hck, ih, StoreDb.findDoc]

/-- Lookup after a whole `store_matches` run: a key written by the batch
maps to the document of its last occurrence stamped with this run's
timestamp; other keys read the initial collection. -/
theorem findDoc_store (t : Nat) (ms : List AnalyzeData.Match)
    (c : List StoreDb.StoredDoc) (k : Int) :
    StoreDb.findDoc (StoreDb.store_matches t c ms) k =
      match StoreDb.lastOcc ms k with
      | some m => some (StoreDb.mkDoc t m)
      | none => StoreDb.findDoc c k := by
  induction ms generalizing c with
  | nil => simp [StoreDb.store_matches, StoreDb.lastOcc]
  | cons m r ih =>
    rw [show StoreDb.store_matches t c (m :: r) =
      StoreDb.store_matches t (StoreDb.replaceOne c (StoreDb.mkDoc t m)) r
      from rfl]
    rw [ih]
    cases hl : StoreDb.lastOcc r k
    · rw [findDoc_replaceOne]
      simp only [StoreDb.lastOcc, hl, StoreDb.mkDoc]
      by_cases hm : m.match_id = k <;> simp [hm]
    · simp [StoreDb.lastOcc, hl]

/-- Keys reachable after one upsert. -/
theorem mem_keys_replaceOne (c : List StoreDb.StoredDoc)
    (d : StoreDb.StoredDoc) (x : Int)
    (hx : x ∈ (StoreDb.replaceOne c d).map (fun e => e.id)) :
    x ∈ c.map (fun e => e.id) ∨ x = d.id := by
  induction c with
  | nil =>
    simp [StoreDb.replaceOne] at hx
    exact Or.inr hx
  | cons c cs ih =>
    by_cases h1 : c.id = d.id
    · simp only [StoreDb.replaceOne, if_pos h1, List.map_cons,
        List.mem_cons] at hx
      rcases hx with rfl | hx
      · exact Or.inr rfl
      · refine Or.inl ?_
        rw [List.map_cons]
        exact List.mem_cons_of_mem _ hx
    · simp only [StoreDb.replaceOne, if_neg h1, List.map_cons,
        List.mem_cons] at hx
      rcases hx with rfl | hx
      · refine Or.inl ?_
        rw [List.map_cons]
        exact List.mem_cons_self _ _
      · rcases ih hx with h | h
        · refine Or.inl ?_
          rw [List.map_cons]
          exact List.mem_cons_of_mem _ h
        · exact Or.inr h

/-- An upsert cannot introduce a duplicate `_id`. -/
theorem nodup_keys_replaceOne (c : List StoreDb.StoredDoc)
    (d : StoreDb.StoredDoc)
    (h : (c.map (fun e => e.id)).Nodup) :
    ((StoreDb.replaceOne c d).map (fun e => e.id)).Nodup := by
  induction c with
  | nil => simp [StoreDb.replaceOne]
  | cons c cs ih =>
    rw [List.map_cons] at h
    obtain ⟨hni, hnd⟩ := List.nodup_cons.mp h
    by_cases h1 : c.id = d.id
    · simp only [StoreDb.replaceOne, if_pos h1, List.map_cons]
      refine List.nodup_cons.mpr ⟨?_, hnd⟩
      rw [← h1]
      exact hni
    · simp only [StoreDb.replaceOne, if_neg h1, List.map_cons]
      refine List.nodup_cons.mpr ⟨?_, ih hnd⟩
      intro hmem
      rcases mem_keys_replaceOne cs d c.id hmem with h | h
      · exact hni h
      · exact h1 h

/-- Everything in an upserted collection is the new document or was already
there. -/
theorem mem_replaceOne (c : List StoreDb.StoredDoc) (d e : StoreDb.StoredDoc)
    (he : e ∈ StoreDb.replaceOne c d) : e = d ∨ e ∈ c := by
  induction c with
  | nil =>
    simp [StoreDb.replaceOne] at he
    exact Or.inl he
  | cons c cs ih =>
    by_cases h1 : c.id = d.id
    · simp only [StoreDb.replaceOne, if_pos h1, List.mem_cons] at he
      rcases he with rfl | he
      · exact Or.inl rfl
      · exact Or.inr (List.mem_cons_of_mem _ he)
    · simp only [StoreDb.replaceOne, if_neg h1, List.mem_cons] at he
      rcases he with rfl | he
      · exact Or.inr (List.mem_cons_self _ _)
      · rcases ih he with h | h
        · exact Or.inl h
        · exact Or.inr (List.mem_cons_of_mem _ h)

/-- Unique keys are preserved by a whole `store_matches` run. -/
theorem nodup_keys_store (t : Nat) (ms : List AnalyzeData.Match)
    (c : List StoreDb.StoredDoc)
    (h : (c.map (fun e => e.id)).Nodup) :
    ((StoreDb.store_matches t c ms).map (fun e => e.id)).Nodup := by
  induction ms generalizing c with
  | nil => exact h
  | cons m r ih =>
    exact ih (StoreDb.replaceOne c (StoreDb.mkDoc t m))
      (nodup_keys_replaceOne c (StoreDb.mkDoc t m) h)

/-- Every document after a run is either a freshly stamped batch document
(whose `_id` is its body's match id) or a pre-existing one. -/
theorem mem_store (t : Nat) (ms : List AnalyzeData.Match)
    (c : List StoreDb.StoredDoc) (e : StoreDb.StoredDoc)
    (he : e ∈ StoreDb.store_matches t c ms) :
    e.id = e.body.match_id ∨ e ∈ c := by
  induction ms generalizing c with
  | nil => exact Or.inr he
  | cons m r ih =>
    rcases ih (StoreDb.replaceOne c (StoreDb.mkDoc t m)) he with h | h
    · exact Or.inl h
    · rcases mem_replaceOne c (StoreDb.mkDoc t m) e h with rfl | h
      · exact Or.inl rfl
      · exact Or.inr h

/-- C10: storing raw matches is an upsert keyed by `match_id` — starting
from a collection with unique `_id`s the result still has at most one
document per id; every document is either a batch document whose `_id`
equals its match id or a pre-existing one; and a second run over the same
input leaves the collection observably identical (key by key) to a single
run, the only per-run difference being the `stored_at` stamp `t₂`. -/
theorem c10_store_idempotent (t₁ t₂ : Nat)
    (coll : List StoreDb.StoredDoc) (ms : List AnalyzeData.Match) :
    ((coll.map (fun e => e.id)).Nodup →
      ((StoreDb.store_matches t₁ coll ms).map (fun e => e.id)).Nodup) ∧
    (∀ e ∈ StoreDb.store_matches t₁ coll ms,
      e.id = e.body.match_id ∨ e ∈ coll) ∧
    (∀ k, StoreDb.findDoc
        (StoreDb.store_matches t₂ (StoreDb.store_matches t₁ coll ms) ms) k =
      StoreDb.findDoc (StoreDb.store_matches t₂ coll ms) k) := by
  refine ⟨nodup_keys_store t₁ ms coll, fun e he => mem_store t₁ ms coll e he,
    ?_⟩
  intro k
  have hL := findDoc_store t₂ ms (StoreDb.store_matches t₁ coll ms) k
  have hR := findDoc_store t₂ ms coll k
  have hI := findDoc_store t₁ ms coll k
  cases hl : StoreDb.lastOcc ms k with
  | none =>
    rw [hl] at hL hR hI
    rw [hL, hR]
    show StoreDb.findDoc (StoreDb.store_matches t₁ coll ms) k =
      StoreDb.findDoc coll k
    rw [hI]
  | some m =>
    rw [hl] at hL hR
    rw [hL, hR]

/-- C10 witness: the idempotence theorem at an initially empty collection
and a one-match batch, plus its key facts. -/
theorem c10_witness :
    ((StoreDb.store_matches 1 [] [Examples.mStore]).map
      (fun e => e.id)).Nodup ∧
    ((StoreDb.mkDoc 1 Examples.mStore).id =
        (StoreDb.mkDoc 1 Examples.mStore).body.match_id ∨
      StoreDb.mkDoc 1 Examples.mStore ∈ ([] : List StoreDb.StoredDoc)) ∧
    StoreDb.findDoc
        (StoreDb.store_matches 2
          (StoreDb.store_matches 1 [] [Examples.mStore]) [Examples.mStore])
        7 =
      StoreDb.findDoc (StoreDb.store_matches 2 [] [Examples.mStore]) 7 :=
  ⟨(c10_store_idempotent 1 2 [] [Examples.mStore]).1 (by decide),
   (c10_store_idempotent 1 2 [] [Examples.mStore]).2.1
     (StoreDb.mkDoc 1 Examples.mStore) (by decide),
   (c10_store_idempotent 1 2 [] [Examples.mStore]).2.2 7⟩
